import Mathlib

/-!
Shallow embedding of `src/bootstrap/register.py` (BRIDGE-Node bootstrap
registration script).

The script performs at most two outbound HTTP POSTs per `register_site`
call: a form-encoded OAuth2 client-credentials exchange against the token
endpoint, then a JSON registration request against `<api_url>/register`.
We model the two external endpoints as an environment `Env` that fixes, for
each endpoint, either a transport-level exception or an HTTP response, and
we record every `requests.post` call the code makes in a trace of
`IssuedRequest` values.  JSON bodies are modelled as flat objects of
scalar fields, which covers every body the script reads or writes.
Python exceptions become the inductive `PyError`; a bare `raise` that
re-raises is the identity on that value.  Library-generated exception
message texts (HTTPError, JSONDecodeError, ValidationError) are rendered
in `PyError.pyStr` following the shape of the real messages; the
script-generated messages (RegistrationApiError, the usage line, the
failure print) are reproduced exactly.
-/

namespace BridgeNode

/-- A JSON scalar value, as far as the script inspects JSON. -/
inductive JScalar where
  | jstr : String → JScalar
  | jnum : Int → JScalar
  | jnull : JScalar
deriving DecidableEq, Repr

/-- Python truthiness of the scalar (used by `if access_token:`). -/
def JScalar.truthy : JScalar → Bool
  | .jstr s => s ≠ ""
  | .jnum n => n ≠ 0
  | .jnull => false

/-- Python `str()` of the scalar (used by the f-string `f"Bearer {access_token}"`). -/
def JScalar.pyStr : JScalar → String
  | .jstr s => s
  | .jnum n => toString n
  | .jnull => "None"

/-- A parsed JSON object body: ordered fields with scalar values. -/
abbrev JObject := List (String × JScalar)

/-- An HTTP response as the script observes it: status code, raw text body,
and its JSON parse (`none` when `.json()` would raise `JSONDecodeError`). -/
structure HttpResponse where
  status : Nat
  text : String
  json : Option JObject
deriving DecidableEq, Repr

/-- What an external endpoint does when POSTed to: raise a transport-level
exception (connection error, timeout, ...) carrying a message, or answer
with an HTTP response. -/
inductive EndpointBehavior where
  | raises : String → EndpointBehavior
  | responds : HttpResponse → EndpointBehavior
deriving DecidableEq, Repr

/-- The external world of one execution: behavior of the OIDC token endpoint
and of the registration endpoint. -/
structure Env where
  tokenEndpoint : EndpointBehavior
  registerEndpoint : EndpointBehavior
deriving DecidableEq, Repr

/-- One `requests.post` call made by the script: URL, headers, form-encoded
body (`data=`), JSON body (`json=`), and the timeout argument
(`none` = no `timeout=` passed, so no time bound). -/
structure IssuedRequest where
  url : String
  headers : List (String × String)
  formData : Option (List (String × String))
  jsonBody : Option (List (String × String))
  timeout : Option Nat
deriving DecidableEq, Repr

/-- Python exceptions the script can raise or propagate. -/
inductive PyError where
  | httpError : Nat → PyError
  | jsonDecodeError : PyError
  | keyError : String → PyError
  | validationError : PyError
  | registrationApiError : String → PyError
  | transportError : String → PyError
  | attributeError : String → PyError
deriving DecidableEq, Repr

/-- Python `str()` of the exception, as printed by
`print("Registration failed:", e)`.  `registrationApiError`,
`transportError` and `attributeError` carry their exact message;
the renderings of the `requests`/`json`/`pydantic` library exceptions
follow the shape of the real library messages. -/
def PyError.pyStr : PyError → String
  | .httpError s =>
      toString s ++ (if s < 500 then " Client Error" else " Server Error")
  | .jsonDecodeError => "Expecting value: line 1 column 1 (char 0)"
  | .keyError k => "\x27" ++ k ++ "\x27"
  | .validationError => "1 validation error for SiteRegistrationResponse"
  | .registrationApiError m => m
  | .transportError m => m
  | .attributeError m => m

/-- `class SiteRegistrationRequest(BaseModel)`: the request payload shape. -/
structure SiteRegistrationRequest where
  site_name : String
  public_key : String
deriving DecidableEq, Repr

/-- `.model_dump()` of the request model: exactly the two declared fields,
in declaration order. -/
def SiteRegistrationRequest.model_dump (r : SiteRegistrationRequest) :
    List (String × String) :=
  [("site_name", r.site_name), ("public_key", r.public_key)]

/-- `class SiteRegistrationResponse(BaseModel)`: the response shape.
`created_at: datetime` is modelled as the raw timestamp string pydantic
parsed it from. -/
structure SiteRegistrationResponse where
  id : Int
  site_name : String
  created_at : String
  created_by : String
deriving DecidableEq, Repr

/-- `SiteRegistrationResponse(**json_object)`: pydantic validation of the
response body.  Each declared field must be present with a value of the
declared shape (extra fields are ignored, pydantic's default); otherwise a
`ValidationError` is raised. -/
def parseSiteRegistrationResponse (j : JObject) :
    Except PyError SiteRegistrationResponse :=
  match j.lookup "id", j.lookup "site_name",
        j.lookup "created_at", j.lookup "created_by" with
  | some (.jnum i), some (.jstr sn), some (.jstr ca), some (.jstr cb) =>
      .ok { id := i, site_name := sn, created_at := ca, created_by := cb }
  | _, _, _, _ => .error .validationError

/-- Python attribute access `result.get`: pydantic `BaseModel` defines no
method `get`, so the lookup raises `AttributeError` before any call is
made, whatever the intended key. -/
def SiteRegistrationResponse.get (_r : SiteRegistrationResponse)
    (_key : String) : Except PyError JScalar :=
  .error (.attributeError
    "\x27SiteRegistrationResponse\x27 object has no attribute \x27get\x27")

/-- Python `api_url.rstrip("/")`: drop every trailing slash. -/
def rstripSlashes (s : String) : String :=
  String.mk ((s.toList.reverse.dropWhile (fun ch => ch == '/')).reverse)

/-- `class RegistrationClient`: configuration held on `self`. -/
structure RegistrationClient where
  api_url : String
  oidc_token_url : String
  oidc_client_id : String
  oidc_client_secret : String
  timeout : Nat
deriving DecidableEq, Repr

/-- The default value of `__init__`'s `timeout` parameter. -/
def defaultTimeout : Nat := 10

/-- `RegistrationClient.__init__`. -/
def RegistrationClient.init (api_url oidc_token_url oidc_client_id
    oidc_client_secret : String) (timeout : Nat) : RegistrationClient :=
  { api_url := rstripSlashes api_url
    oidc_token_url := oidc_token_url
    oidc_client_id := oidc_client_id
    oidc_client_secret := oidc_client_secret
    timeout := timeout }

deriving instance DecidableEq for Except

/-- Result of running one method: the returned value or the exception that
escaped, the `requests.post` calls the method made, and `self` as it stands
after the method (the source never assigns to an attribute outside
`__init__`, which the embedding reflects by threading `self` explicitly
through every return point). -/
structure MRes (α : Type) where
  result : Except PyError α
  requests : List IssuedRequest
  self : RegistrationClient
deriving DecidableEq, Repr

/-- The form-encoded POST `_get_jwt_access_token` sends to the token
endpoint: credentials in the `data=` body, no `timeout=` argument. -/
def tokenRequest (c : RegistrationClient) : IssuedRequest :=
  { url := c.oidc_token_url
    headers := [("Content-Type", "application/x-www-form-urlencoded")]
    formData := some [("grant_type", "client_credentials"),
                      ("client_id", c.oidc_client_id),
                      ("client_secret", c.oidc_client_secret)]
    jsonBody := none
    timeout := none }

/-- `RegistrationClient._get_jwt_access_token`: POST the credentials,
`raise_for_status()` (which raises `HTTPError` exactly for statuses in
400–599), parse the JSON body, and index `["access_token"]`. -/
def RegistrationClient.jwt_access_token (c : RegistrationClient)
    (env : Env) : MRes JScalar :=
  let req := tokenRequest c
  match env.tokenEndpoint with
  | .raises m => { result := .error (.transportError m), requests := [req], self := c }
  | .responds r =>
      if 400 ≤ r.status ∧ r.status < 600 then
        { result := .error (.httpError r.status), requests := [req], self := c }
      else
        match r.json with
        | none => { result := .error .jsonDecodeError, requests := [req], self := c }
        | some j =>
            match j.lookup "access_token" with
            | none => { result := .error (.keyError "access_token"),
                        requests := [req], self := c }
            | some tok => { result := .ok tok, requests := [req], self := c }

/-- `RegistrationClient._get_headers`: Accept and Content-Type always;
Authorization Bearer only when the freshly fetched token is truthy. -/
def RegistrationClient.get_headers (c : RegistrationClient) (env : Env) :
    MRes (List (String × String)) :=
  let headers := [("Accept", "application/json"),
                  ("Content-Type", "application/json")]
  let t := c.jwt_access_token env
  match t.result with
  | .error e => { result := .error e, requests := t.requests, self := t.self }
  | .ok access_token =>
      if access_token.truthy then
        { result := .ok (headers ++
            [("Authorization", "Bearer " ++ access_token.pyStr)])
          requests := t.requests, self := t.self }
      else
        { result := .ok headers, requests := t.requests, self := t.self }

/-- The message of the `RegistrationApiError` raised on a non-201 status:
`f"Error {response.status_code}: {response.text}"`. -/
def apiErrorMsg (status : Nat) (text : String) : String :=
  "Error " ++ toString status ++ ": " ++ text

/-- The JSON POST `register_site` sends to `{api_url}/register`. -/
def registrationRequest (c : RegistrationClient) (site_name public_key : String)
    (headers : List (String × String)) : IssuedRequest :=
  { url := c.api_url ++ "/register"
    headers := headers
    formData := none
    jsonBody := some (SiteRegistrationRequest.model_dump
      { site_name := site_name, public_key := public_key })
    timeout := some c.timeout }

/-- `RegistrationClient.register_site`: build the payload, fetch headers
(which performs the token exchange), POST to `{api_url}/register` with
`timeout=self.timeout`.  Any exception from inside the `try` block —
including one raised while evaluating `self._get_headers()` — is logged
and re-raised unmodified by the bare `raise`.  A non-201 status raises
`RegistrationApiError` with the status and raw body in its message;
on 201 the JSON body is validated into `SiteRegistrationResponse`. -/
def RegistrationClient.register_site (c : RegistrationClient)
    (site_name public_key : String) (env : Env) :
    MRes SiteRegistrationResponse :=
  let h := c.get_headers env
  match h.result with
  | .error e => { result := .error e, requests := h.requests, self := h.self }
  | .ok headers =>
      let req := registrationRequest h.self site_name public_key headers
      match env.registerEndpoint with
      | .raises m =>
          { result := .error (.transportError m),
            requests := h.requests ++ [req], self := h.self }
      | .responds r =>
          if r.status ≠ 201 then
            { result := .error (.registrationApiError (apiErrorMsg r.status r.text)),
              requests := h.requests ++ [req], self := h.self }
          else
            match r.json with
            | none => { result := .error .jsonDecodeError,
                        requests := h.requests ++ [req], self := h.self }
            | some j =>
                match parseSiteRegistrationResponse j with
                | .error e => { result := .error e,
                                requests := h.requests ++ [req], self := h.self }
                | .ok resp => { result := .ok resp,
                                requests := h.requests ++ [req], self := h.self }

/-- The usage line `main` prints to standard error on an argument-count
mismatch. -/
def usageMessage : String :=
  "Usage: register.py <api_url> <site_name> <public_key> <oidc_token_url> <oidc_client_id> <oidc_client_secret>"

/-- Observable outcome of one run of `main`: lines printed to stdout and
stderr by `print`, the process exit status, and the `requests.post` calls
made.  `logger.info`/`logger.error` output is not part of the outcome: the
script never configures logging, so with the default root level (WARNING)
those records are dropped. -/
structure MainOutcome where
  stdout : List String
  stderr : List String
  exitCode : Nat
  requests : List IssuedRequest
deriving DecidableEq, Repr

/-- The body of `main`'s `try` block: call `register_site`, then report via
`result.get("id")`, `result.get("github_repo_url")`, `result.get("created_at")`
(each an attribute access on the pydantic model, see
`SiteRegistrationResponse.get`).  Returns the exception that escapes the
block, if any, plus the requests issued. -/
def mainTryBody (client : RegistrationClient) (site_name public_key : String)
    (env : Env) : Except PyError Unit × List IssuedRequest :=
  let res := client.register_site site_name public_key env
  match res.result with
  | .error e => (.error e, res.requests)
  | .ok result =>
      match result.get "id" with
      | .error e => (.error e, res.requests)
      | .ok _ =>
          match result.get "github_repo_url" with
          | .error e => (.error e, res.requests)
          | .ok _ =>
              match result.get "created_at" with
              | .error e => (.error e, res.requests)
              | .ok _ => (.ok (), res.requests)

/-- `main`, on the full argument vector `argv` (`argv[0]` is the program
name, as in `sys.argv`).  Fewer than 7 entries: print usage to stderr and
`sys.exit(1)`.  Otherwise construct the client (no `timeout` argument, so
the default 10 applies), collect the unused local metadata (hostname, OS,
UUID — no observable effect), run the `try` block, and on exception print
`"Registration failed:"` and the exception; no exit code is set after
parsing, so the process ends with status 0. -/
def main (argv : List String) (env : Env) : MainOutcome :=
  if argv.length < 7 then
    { stdout := [], stderr := [usageMessage], exitCode := 1, requests := [] }
  else
    let api_url := argv.getD 1 ""
    let site_name := argv.getD 2 ""
    let public_key := argv.getD 3 ""
    let oidc_token_url := argv.getD 4 ""
    let oidc_client_id := argv.getD 5 ""
    let oidc_client_secret := argv.getD 6 ""
    let registration_client := RegistrationClient.init api_url oidc_token_url
      oidc_client_id oidc_client_secret defaultTimeout
    match mainTryBody registration_client site_name public_key env with
    | (.ok _, reqs) =>
        { stdout := [], stderr := [], exitCode := 0, requests := reqs }
    | (.error e, reqs) =>
        { stdout := ["Registration failed: " ++ e.pyStr], stderr := [],
          exitCode := 0, requests := reqs }

/-- The client a run of `main` on `argv` constructs (when parsing succeeds). -/
@[reducible] def mainClient (argv : List String) : RegistrationClient :=
  RegistrationClient.init (argv.getD 1 "") (argv.getD 4 "") (argv.getD 5 "")
    (argv.getD 6 "") defaultTimeout

/-! Concrete fixtures used by witnesses and counterexamples. -/

/-- A sample client, built through `__init__` with the default timeout. -/
def sampleClient : RegistrationClient :=
  RegistrationClient.init "https://api.example.org" "https://auth.example.org/token"
    "client-id" "client-secret" defaultTimeout

/-- A 200 token-endpoint answer with a valid `access_token`. -/
def tokenRespOk : HttpResponse :=
  { status := 200, text := "token body"
    json := some [("access_token", .jstr "tok123")] }

/-- The headers `_get_headers` computes from `tokenRespOk`. -/
def hdrsOk : List (String × String) :=
  [("Accept", "application/json"), ("Content-Type", "application/json"),
   ("Authorization", "Bearer tok123")]

/-- A 201 registration-endpoint answer with a valid body. -/
def regRespOk : HttpResponse :=
  { status := 201, text := "created"
    json := some [("id", .jnum 7), ("site_name", .jstr "alpha"),
                  ("created_at", .jstr "2024-01-01T00:00:00Z"),
                  ("created_by", .jstr "admin")] }

/-- The response object pydantic builds from `regRespOk`. -/
def regParsedOk : SiteRegistrationResponse :=
  { id := 7, site_name := "alpha", created_at := "2024-01-01T00:00:00Z"
    created_by := "admin" }

/-- The fully successful world: token 200, registration 201. -/
def envOk : Env :=
  { tokenEndpoint := .responds tokenRespOk, registerEndpoint := .responds regRespOk }

/-- A world where the registration endpoint answers 200 — a 2xx status that
is still not 201. -/
def envReg200 : Env :=
  { tokenEndpoint := .responds tokenRespOk
    registerEndpoint := .responds { status := 200, text := "ok body", json := none } }

/-- A world where the token endpoint answers 500. -/
def envToken500 : Env :=
  { tokenEndpoint := .responds { status := 500, text := "oops", json := none }
    registerEndpoint := .responds regRespOk }

/-- A world where the token endpoint answers 202 — non-200 yet not an HTTP
error status — with a valid token body. -/
def envToken202 : Env :=
  { tokenEndpoint := .responds
      { status := 202, text := "accepted", json := some [("access_token", .jstr "tok202")] }
    registerEndpoint := .responds regRespOk }

/-- The headers `_get_headers` computes from the 202 token answer. -/
def hdrs202 : List (String × String) :=
  [("Accept", "application/json"), ("Content-Type", "application/json"),
   ("Authorization", "Bearer tok202")]

/-- A world where the registration endpoint raises a connection error. -/
def envRegRaises : Env :=
  { tokenEndpoint := .responds tokenRespOk
    registerEndpoint := .raises "ConnectionError: connection refused" }

/-- A world where the token endpoint answers 200 with an empty-string
`access_token` (present, falsy). -/
def envTokenEmpty : Env :=
  { tokenEndpoint := .responds
      { status := 200, text := "empty token", json := some [("access_token", .jstr "")] }
    registerEndpoint := .responds regRespOk }

/-- The two headers sent when the token is falsy: no Authorization. -/
def hdrsNoAuth : List (String × String) :=
  [("Accept", "application/json"), ("Content-Type", "application/json")]

/-- A full argument vector: program name plus exactly six positional
arguments. -/
def argv7 : List String :=
  ["register.py", "https://api.example.org", "alpha", "PUBKEY123",
   "https://auth.example.org/token", "client-id", "client-secret"]

/-- A short argument vector: only two positional arguments. -/
def argvShort : List String :=
  ["register.py", "https://api.example.org", "alpha"]

/-- Shape of the token step: it always issues exactly the credential POST,
and it leaves `self` untouched. -/
theorem jwt_access_token_shape (c : RegistrationClient) (env : Env) :
    (c.jwt_access_token env).requests = [tokenRequest c] ∧
    (c.jwt_access_token env).self = c := by
  unfold RegistrationClient.jwt_access_token
  cases env.tokenEndpoint with
  | raises m => exact ⟨rfl, rfl⟩
  | responds r => repeat' first | exact ⟨rfl, rfl⟩ | split

/-- Shape of the header step: same trace and `self` as the token step. -/
theorem get_headers_shape (c : RegistrationClient) (env : Env) :
    (c.get_headers env).requests = [tokenRequest c] ∧
    (c.get_headers env).self = c := by
  rcases jwt_access_token_shape c env with ⟨hreq, hself⟩
  simp only [RegistrationClient.get_headers]
  repeat' first | exact ⟨hreq, hself⟩ | split

/-- Shape of a `register_site` run: the trace is the token POST alone (the
token step raised) or the token POST followed by the registration POST with
the computed headers; `self` is returned unchanged in every case. -/
theorem register_site_shape (c : RegistrationClient) (site_name public_key : String)
    (env : Env) :
    ((c.register_site site_name public_key env).requests = [tokenRequest c] ∨
      ∃ headers, (c.get_headers env).result = .ok headers ∧
        (c.register_site site_name public_key env).requests =
          [tokenRequest c, registrationRequest c site_name public_key headers]) ∧
    (c.register_site site_name public_key env).self = c := by
  rcases get_headers_shape c env with ⟨hreq, hself⟩
  simp only [RegistrationClient.register_site]
  repeat' split
  all_goals simp_all

/-- The requests a run of `main`'s `try` block makes are exactly those of
the `register_site` call. -/
theorem mainTryBody_requests (client : RegistrationClient)
    (site_name public_key : String) (env : Env) :
    (mainTryBody client site_name public_key env).2 =
      (client.register_site site_name public_key env).requests := by
  simp only [mainTryBody]
  repeat' split
  all_goals rfl

/-- When parsing succeeds, `main`'s trace is the `register_site` trace of
the client it constructed. -/
theorem main_requests (argv : List String) (env : Env) (h7 : ¬ argv.length < 7) :
    (main argv env).requests =
      ((mainClient argv).register_site (argv.getD 2 "") (argv.getD 3 "") env).requests := by
  have hb := mainTryBody_requests (mainClient argv) (argv.getD 2 "") (argv.getD 3 "") env
  simp only [main, if_neg h7]
  split
  · next heq => exact ((congrArg Prod.snd heq).symm).trans hb
  · next heq => exact ((congrArg Prod.snd heq).symm).trans hb

/-- When parsing succeeds and `register_site` raises, `main` prints exactly
the failure line with the exception's message and sets no exit status. -/
theorem main_error_outcome (argv : List String) (env : Env) (h7 : ¬ argv.length < 7)
    (e : PyError)
    (herr : ((mainClient argv).register_site (argv.getD 2 "") (argv.getD 3 "") env).result
      = .error e) :
    main argv env =
      { stdout := ["Registration failed: " ++ e.pyStr], stderr := [], exitCode := 0
        requests := ((mainClient argv).register_site (argv.getD 2 "") (argv.getD 3 "") env).requests } := by
  have hbody : mainTryBody (mainClient argv) (argv.getD 2 "") (argv.getD 3 "") env =
      (.error e,
        ((mainClient argv).register_site (argv.getD 2 "") (argv.getD 3 "") env).requests) := by
    simp only [mainTryBody, herr]
  simp only [main, if_neg h7, hbody]

/-- C9: for every client and every `register_site` call — returning,
raising an API error, or raising a transport error — the configuration
fields `api_url`, `oidc_token_url`, `oidc_client_id`, `oidc_client_secret`
and `timeout` are exactly as set at construction; nothing after `__init__`
modifies them. -/
theorem registration_client_config_read_only (c : RegistrationClient)
    (site_name public_key : String) (env : Env) :
    (c.register_site site_name public_key env).self = c ∧
    (c.register_site site_name public_key env).self.api_url = c.api_url ∧
    (c.register_site site_name public_key env).self.oidc_token_url = c.oidc_token_url ∧
    (c.register_site site_name public_key env).self.oidc_client_id = c.oidc_client_id ∧
    (c.register_site site_name public_key env).self.oidc_client_secret = c.oidc_client_secret ∧
    (c.register_site site_name public_key env).self.timeout = c.timeout := by
  have h := (register_site_shape c site_name public_key env).2
  exact ⟨h, by rw [h], by rw [h], by rw [h], by rw [h], by rw [h]⟩

/-- C10: in every `register_site` run, the token-endpoint POST (the one
with a form-encoded body) is issued with no `timeout` argument at all,
while the registration POST (the one with a JSON body) is issued with the
configured timeout, whose `__init__` default is 10. -/
theorem token_post_unbounded_registration_post_bounded
    (c : RegistrationClient) (site_name public_key : String) (env : Env) :
    (∀ req ∈ (c.register_site site_name public_key env).requests,
        req.formData ≠ none → req.timeout = none) ∧
    (∀ req ∈ (c.register_site site_name public_key env).requests,
        req.jsonBody ≠ none → req.timeout = some c.timeout) ∧
    defaultTimeout = 10 := by
  obtain ⟨htrace, -⟩ := register_site_shape c site_name public_key env
  refine ⟨?_, ?_, rfl⟩ <;> intro req hmem hside <;>
    rcases htrace with h | ⟨hdrs, -, h⟩ <;> rw [h] at hmem <;>
    simp only [List.mem_singleton, List.mem_cons, List.not_mem_nil, or_false] at hmem
  · subst hmem; rfl
  · rcases hmem with hm | hm <;> subst hm
    · rfl
    · exact absurd rfl hside
  · subst hmem; exact absurd rfl hside
  · rcases hmem with hm | hm <;> subst hm
    · exact absurd rfl hside
    · rfl

/-- Witness for C10 at a concrete successful run: the token POST of that
run carries no timeout, the registration POST carries `timeout = 10`. -/
theorem token_post_unbounded_registration_post_bounded_witness :
    (tokenRequest sampleClient).timeout = none ∧
    (registrationRequest sampleClient "alpha" "PUBKEY123" hdrsOk).timeout = some 10 := by
  have h := token_post_unbounded_registration_post_bounded sampleClient
    "alpha" "PUBKEY123" envOk
  exact ⟨h.1 (tokenRequest sampleClient) (by decide) (by decide),
         h.2.1 (registrationRequest sampleClient "alpha" "PUBKEY123" hdrsOk)
           (by decide) (by decide)⟩

/-- C2: once the token step has produced headers, `register_site` treats
exactly status 201 as success: any other status (200 included) raises a
`RegistrationApiError` whose message carries that exact status code and the
raw response body — a constructor distinct from transport failures — and on
201 it returns the deserialized response. -/
theorem register_site_strict_201 (c : RegistrationClient)
    (site_name public_key : String) (env : Env)
    (headers : List (String × String))
    (htok : (c.get_headers env).result = .ok headers)
    (r : HttpResponse) (hreg : env.registerEndpoint = .responds r) :
    (r.status ≠ 201 →
      (c.register_site site_name public_key env).result =
        .error (.registrationApiError (apiErrorMsg r.status r.text))) ∧
    (∀ j resp, r.status = 201 → r.json = some j →
      parseSiteRegistrationResponse j = .ok resp →
      (c.register_site site_name public_key env).result = .ok resp) ∧
    (∀ m t, PyError.registrationApiError m ≠ PyError.transportError t) := by
  refine ⟨?_, ?_, fun m t h => PyError.noConfusion h⟩
  · intro h
    simp [RegistrationClient.register_site, htok, hreg, h]
  · intro j resp h201 hj hparse
    simp [RegistrationClient.register_site, htok, hreg, h201, hj, hparse]

/-- Witness for C2: a 200 answer from the registration endpoint (2xx, yet
not 201) raises `RegistrationApiError` with status 200 and the raw body,
while a 201 answer returns the parsed response. -/
theorem register_site_strict_201_witness :
    (sampleClient.register_site "alpha" "PUBKEY123" envReg200).result =
      .error (.registrationApiError (apiErrorMsg 200 "ok body")) ∧
    (sampleClient.register_site "alpha" "PUBKEY123" envOk).result = .ok regParsedOk := by
  have h200 := register_site_strict_201 sampleClient "alpha" "PUBKEY123" envReg200
    hdrsOk (by decide) { status := 200, text := "ok body", json := none } rfl
  have h201 := register_site_strict_201 sampleClient "alpha" "PUBKEY123" envOk
    hdrsOk (by decide) regRespOk rfl
  exact ⟨h200.1 (by decide),
         h201.2.1 (regRespOk.json.getD []) regParsedOk rfl rfl (by decide)⟩

/-- C3 counterexample: the token endpoint answers 202 — a non-200 status —
with a valid token body; `raise_for_status()` only raises for 4xx/5xx, so
the token step succeeds and the registration endpoint IS invoked (the trace
has the registration POST, and the run even succeeds). -/
theorem token_non_200_counterexample :
    envToken202.tokenEndpoint =
      .responds { status := 202, text := "accepted"
                  json := some [("access_token", .jstr "tok202")] } ∧
    (202 ≠ 200) ∧
    (sampleClient.register_site "alpha" "PUBKEY123" envToken202).requests =
      [tokenRequest sampleClient,
       registrationRequest sampleClient "alpha" "PUBKEY123" hdrs202] ∧
    (sampleClient.register_site "alpha" "PUBKEY123" envToken202).result =
      .ok regParsedOk := by
  refine ⟨rfl, by decide, by decide, by decide⟩

/-- C3 amended: when the token endpoint answers an HTTP error status
(4xx/5xx — the statuses `raise_for_status()` raises for), `register_site`
fails with that status and the registration endpoint is never invoked: the
trace holds the token POST alone. -/
theorem token_error_means_no_registration_call (c : RegistrationClient)
    (site_name public_key : String) (env : Env) (r : HttpResponse)
    (h1 : env.tokenEndpoint = .responds r)
    (h2 : 400 ≤ r.status) (h3 : r.status < 600) :
    (c.register_site site_name public_key env).result = .error (.httpError r.status) ∧
    (c.register_site site_name public_key env).requests = [tokenRequest c] := by
  have htok : c.jwt_access_token env =
      { result := .error (.httpError r.status), requests := [tokenRequest c], self := c } := by
    simp [RegistrationClient.jwt_access_token, h1, h2, h3]
  have hh : c.get_headers env =
      { result := .error (.httpError r.status), requests := [tokenRequest c], self := c } := by
    simp [RegistrationClient.get_headers, htok]
  constructor <;> simp [RegistrationClient.register_site, hh]

/-- Witness for the amended C3 at a concrete 500 token answer: the failure
carries status 500 and only the token POST was issued. -/
theorem token_error_means_no_registration_call_witness :
    (sampleClient.register_site "alpha" "PUBKEY123" envToken500).result =
      .error (.httpError 500) ∧
    (sampleClient.register_site "alpha" "PUBKEY123" envToken500).requests =
      [tokenRequest sampleClient] :=
  token_error_means_no_registration_call sampleClient "alpha" "PUBKEY123"
    envToken500 { status := 500, text := "oops", json := none } rfl
    (by decide) (by decide)

/-- C6: every JSON-bodied request a `register_site` call issues (the only
one being the registration POST) carries exactly the two-field object
`site_name`/`public_key` built from the arguments — nothing else. -/
theorem registration_payload_exact (c : RegistrationClient)
    (site_name public_key : String) (env : Env) (req : IssuedRequest)
    (hmem : req ∈ (c.register_site site_name public_key env).requests)
    (hjson : req.jsonBody ≠ none) :
    req.jsonBody = some [("site_name", site_name), ("public_key", public_key)] := by
  obtain ⟨htrace, -⟩ := register_site_shape c site_name public_key env
  rcases htrace with h | ⟨hdrs, -, h⟩ <;> rw [h] at hmem <;>
    simp only [List.mem_singleton, List.mem_cons, List.not_mem_nil, or_false] at hmem
  · subst hmem; exact absurd rfl hjson
  · rcases hmem with hm | hm <;> subst hm
    · exact absurd rfl hjson
    · rfl

/-- Witness for C6 at `("alpha", "PUBKEY123")`: the registration POST of a
concrete successful run carries exactly that JSON object. -/
theorem registration_payload_exact_witness :
    (registrationRequest sampleClient "alpha" "PUBKEY123" hdrsOk).jsonBody =
      some [("site_name", "alpha"), ("public_key", "PUBKEY123")] :=
  registration_payload_exact sampleClient "alpha" "PUBKEY123" envOk
    (registrationRequest sampleClient "alpha" "PUBKEY123" hdrsOk)
    (by decide) (by decide)

/-- C7: a transport-level exception from the registration POST propagates
to the caller as that exact exception — the transport constructor with the
same message, not wrapped into the API-error constructor — and no second
registration attempt is made (the trace holds exactly one registration
POST). -/
theorem transport_error_propagates_unmodified (c : RegistrationClient)
    (site_name public_key : String) (env : Env)
    (headers : List (String × String))
    (htok : (c.get_headers env).result = .ok headers)
    (m : String) (hreg : env.registerEndpoint = .raises m) :
    (c.register_site site_name public_key env).result = .error (.transportError m) ∧
    (c.register_site site_name public_key env).requests =
      [tokenRequest c, registrationRequest c site_name public_key headers] ∧
    (∀ msg, PyError.transportError m ≠ PyError.registrationApiError msg) := by
  obtain ⟨hreq, hself⟩ := get_headers_shape c env
  refine ⟨?_, ?_, fun msg h => PyError.noConfusion h⟩ <;>
    simp [RegistrationClient.register_site, htok, hreg, hreq, hself]

/-- Witness for C7: a concrete connection-refused world surfaces exactly
that transport error after the one token POST and one registration POST. -/
theorem transport_error_propagates_unmodified_witness :
    (sampleClient.register_site "alpha" "PUBKEY123" envRegRaises).result =
      .error (.transportError "ConnectionError: connection refused") ∧
    (sampleClient.register_site "alpha" "PUBKEY123" envRegRaises).requests =
      [tokenRequest sampleClient,
       registrationRequest sampleClient "alpha" "PUBKEY123" hdrsOk] := by
  have h := transport_error_propagates_unmodified sampleClient "alpha" "PUBKEY123"
    envRegRaises hdrsOk (by decide) "ConnectionError: connection refused" rfl
  exact ⟨h.1, h.2.1⟩

/-- C1: on a fully successful run — parsing succeeds, token endpoint 200,
registration endpoint 201 with a valid body, so `register_site` returns the
parsed response — `main` nevertheless reports failure: its success path
calls `result.get("id")` on the pydantic model, which has no `get`
attribute, so an `AttributeError` falls into the `except` handler; the only
line printed is the failure line (the identifier and timestamps are never
printed) and the process exits 0. -/
theorem main_success_run_reports_failure :
    ((mainClient argv7).register_site "alpha" "PUBKEY123" envOk).result = .ok regParsedOk ∧
    main argv7 envOk =
      { stdout := ["Registration failed: \x27SiteRegistrationResponse\x27 object has no attribute \x27get\x27"]
        stderr := [], exitCode := 0
        requests := [tokenRequest (mainClient argv7),
                     registrationRequest (mainClient argv7) "alpha" "PUBKEY123" hdrsOk] } := by
  exact ⟨by decide, by decide⟩

/-- C4: whenever parsing succeeds and `register_site` raises any exception,
`main` prints `Registration failed:` with the exception's message on stdout
and the process exits with status 0 — no non-zero exit code is set on this
path. -/
theorem failure_after_parsing_exits_zero (argv : List String) (env : Env)
    (h7 : ¬ argv.length < 7) (e : PyError)
    (herr : ((mainClient argv).register_site (argv.getD 2 "") (argv.getD 3 "") env).result
      = .error e) :
    (main argv env).stdout = ["Registration failed: " ++ e.pyStr] ∧
    (main argv env).stderr = [] ∧
    (main argv env).exitCode = 0 := by
  rw [main_error_outcome argv env h7 e herr]
  exact ⟨rfl, rfl, rfl⟩

/-- Witness for C4: a concrete run whose registration endpoint answers 200
raises an API error, and `main` prints it and exits 0. -/
theorem failure_after_parsing_exits_zero_witness :
    (main argv7 envReg200).stdout = ["Registration failed: Error 200: ok body"] ∧
    (main argv7 envReg200).stderr = [] ∧
    (main argv7 envReg200).exitCode = 0 := by
  have h := failure_after_parsing_exits_zero argv7 envReg200 (by decide)
    (.registrationApiError (apiErrorMsg 200 "ok body")) (by decide)
  exact h

/-- C5: with fewer than 7 entries in `sys.argv` (fewer than 6 positional
arguments), `main` prints the usage line to stderr, exits 1 and makes no
request; with exactly 7 entries (exactly 6 positional arguments) it
constructs the client and attempts registration — its first outbound
request is that client's token POST. -/
theorem argument_count_gate (argv : List String) (env : Env) :
    (argv.length < 7 →
      main argv env =
        { stdout := [], stderr := [usageMessage], exitCode := 1, requests := [] }) ∧
    (argv.length = 7 →
      ∃ rest, (main argv env).requests = tokenRequest (mainClient argv) :: rest) := by
  constructor
  · intro h
    simp only [main, if_pos h]
  · intro h
    have h7 : ¬ argv.length < 7 := by omega
    have hreqs := main_requests argv env h7
    obtain ⟨htrace, -⟩ :=
      register_site_shape (mainClient argv) (argv.getD 2 "") (argv.getD 3 "") env
    rcases htrace with ht | ⟨hdrs, -, ht⟩
    · exact ⟨[], by rw [hreqs, ht]⟩
    · exact ⟨[registrationRequest (mainClient argv) (argv.getD 2 "") (argv.getD 3 "") hdrs],
        by rw [hreqs, ht]⟩

/-- Witness for C5: three entries print usage and exit 1; seven entries
lead to the token POST being issued. -/
theorem argument_count_gate_witness :
    (main argvShort envOk).stderr = [usageMessage] ∧
    (main argvShort envOk).exitCode = 1 ∧
    (∃ rest, (main argv7 envOk).requests = tokenRequest (mainClient argv7) :: rest) := by
  have hs := (argument_count_gate argvShort envOk).1 (by decide)
  have hf := (argument_count_gate argv7 envOk).2 (by decide)
  exact ⟨by rw [hs], by rw [hs], hf⟩

/-- C8 counterexample: the token endpoint answers 200 with the falsy token
`""`; the fresh exchange succeeds, yet — because of `if access_token:` —
the registration POST is sent with only Accept and Content-Type, no
Authorization header, so the POST does not carry the three claimed
headers. -/
theorem empty_token_no_auth_header_counterexample :
    ((sampleClient.jwt_access_token envTokenEmpty).result = .ok (.jstr "")) ∧
    (sampleClient.register_site "alpha" "PUBKEY123" envTokenEmpty).requests =
      [tokenRequest sampleClient,
       registrationRequest sampleClient "alpha" "PUBKEY123" hdrsNoAuth] ∧
    hdrsNoAuth.lookup "Authorization" = none := by
  exact ⟨by decide, by decide, by decide⟩

/-- C8 amended: every `register_site` call starts with a fresh credential
exchange — its first outbound request is always the token POST, and the
client retains no token between calls (its state after the call equals its
construction-time state, see C9) — and whenever the freshly returned
`access_token` is truthy, the registration POST carries exactly the headers
Accept, Content-Type and `Authorization: Bearer <that token>`; a falsy
token omits the Authorization header. -/
theorem fresh_token_exchange_and_headers (c : RegistrationClient)
    (site_name public_key : String) (env : Env) :
    ((c.register_site site_name public_key env).requests.head? =
      some (tokenRequest c)) ∧
    (∀ tok, (c.jwt_access_token env).result = .ok tok → tok.truthy = true →
      ∀ req ∈ (c.register_site site_name public_key env).requests,
        req.jsonBody ≠ none →
        req.headers = [("Accept", "application/json"),
                       ("Content-Type", "application/json"),
                       ("Authorization", "Bearer " ++ tok.pyStr)]) := by
  obtain ⟨htrace, -⟩ := register_site_shape c site_name public_key env
  constructor
  · rcases htrace with h | ⟨hdrs, -, h⟩ <;> rw [h] <;> rfl
  · intro tok htok htruthy req hmem hjson
    have hh : (c.get_headers env).result =
        .ok ([("Accept", "application/json"), ("Content-Type", "application/json")] ++
          [("Authorization", "Bearer " ++ tok.pyStr)]) := by
      simp [RegistrationClient.get_headers, htok, htruthy]
    rcases htrace with h | ⟨hdrs, hres, h⟩
    · rw [h] at hmem
      simp only [List.mem_singleton] at hmem
      subst hmem
      exact absurd rfl hjson
    · rw [h] at hmem
      rcases List.mem_cons.mp hmem with hm | hm
      · subst hm
        exact absurd rfl hjson
      · simp only [List.mem_singleton, List.mem_cons, List.not_mem_nil, or_false] at hm
        subst hm
        have hdrsEq := Except.ok.inj (hres.symm.trans hh)
        show (registrationRequest c site_name public_key hdrs).headers = _
        rw [show (registrationRequest c site_name public_key hdrs).headers = hdrs from rfl,
          hdrsEq]
        rfl

/-- Witness for the amended C8: in the concrete successful world the
registration POST carries exactly the three headers with the fresh token. -/
theorem fresh_token_exchange_and_headers_witness :
    (registrationRequest sampleClient "alpha" "PUBKEY123" hdrsOk).headers =
      [("Accept", "application/json"), ("Content-Type", "application/json"),
       ("Authorization", "Bearer tok123")] := by
  have h := fresh_token_exchange_and_headers sampleClient "alpha" "PUBKEY123" envOk
  exact h.2 (.jstr "tok123") (by decide) (by decide)
    (registrationRequest sampleClient "alpha" "PUBKEY123" hdrsOk) (by decide) (by decide)

end BridgeNode
